import Mathlib

/- Shallow embedding of the grab and release interaction of src/src/index.ts
   (a Babylon.js WebXR lecture example).  Meshes are identified by natural
   numbers and scene-graph nodes (parents, the controller grip node) by
   strings.  Logger.Log calls are diagnostics outside the model; the event
   trace records the physics and scene-graph side effects of the handlers
   (impostor sleep and wakeUp, setParent).  A runtime TypeError raised by a
   non-null assertion on a missing grip is modelled with Except.error. -/

/-- Sleep state of a Babylon physics impostor. -/
inductive Phys where
  | asleep
  | awake
deriving DecidableEq, Repr

/-- Physics and scene-graph side effects performed by the squeeze handlers. -/
inductive Event where
  | sleep (o : Nat)
  | wake (o : Nat)
  | setParent (o : Nat) (p : Option String)
deriving DecidableEq, Repr

/-- Per-mesh scene state: the parent node (none is the world root) and the
    optional physics impostor with its sleep state. -/
structure MeshState where
  parent : Option String
  impostor : Option Phys
deriving DecidableEq, Repr

/-- The Game fields the grab logic touches: rightGrabbedObject, the
    grabbableObjects registry, and the state of every mesh. -/
structure GameState where
  rightGrabbedObject : Option Nat
  grabbableObjects : List Nat
  meshes : Nat → MeshState

/-- A WebXRControllerComponent as the squeeze handlers read it:
    component.pressed and component.changes.pressed. -/
structure SqueezeComponent where
  pressed : Bool
  changedPressed : Bool
deriving DecidableEq, Repr

/-- The motionController of a WebXRInputSource, restricted to the squeeze
    component the grab logic polls. -/
structure MotionController where
  squeeze : Option SqueezeComponent
deriving Repr

/-- A WebXRInputSource: an optional motion controller and an optional grip
    node. -/
structure InputSource where
  motionController : Option MotionController
  grip : Option String
deriving Repr

/-- The polling chain rightController?.motionController?.getComponent of
    processControllerInput: an untracked controller or a missing motion
    controller yields no component. -/
def pollSqueeze (c : Option InputSource) : Option SqueezeComponent :=
  match c with
  | none => none
  | some ctrl =>
    match ctrl.motionController with
    | none => none
    | some mc => mc.squeeze

/-- Side effects of grabbing object o with grip g, in source order: set
    rightGrabbedObject, physicsImpostor?.sleep(), setParent(grip). -/
def grabAttach (o : Nat) (g : String) (s : GameState) : GameState :=
  { s with
    rightGrabbedObject := some o,
    meshes := fun i =>
      if i = o then
        { parent := some g,
          impostor := (s.meshes o).impostor.map (fun _ => Phys.asleep) }
      else s.meshes i }

/-- Trace of the attach side effects: a sleep only when an impostor exists
    (optional chaining), then the reparent onto the grip. -/
def attachTrace (o : Nat) (g : String) (s : GameState) : List Event :=
  (match (s.meshes o).impostor with
   | some _ => [Event.sleep o]
   | none => []) ++ [Event.setParent o (some g)]

/-- The for loop in onRightSqueeze: scan grabbableObjects in order while no
    object is grabbed; each executed iteration dereferences the grip with a
    non-null assertion (a missing grip raises a TypeError) and attaches the
    first intersecting object. -/
def grabScan (grip : Option String) (inter : String → Nat → Bool) :
    List Nat → GameState → Except String (GameState × List Event)
  | [], s => .ok (s, [])
  | o :: rest, s =>
    if s.rightGrabbedObject = none then
      match grip with
      | none => .error "TypeError: right controller grip is null"
      | some g =>
        if inter g o then
          match grabScan grip inter rest (grabAttach o g s) with
          | .ok (s2, ev) => .ok (s2, attachTrace o g s ++ ev)
          | .error e => .error e
        else grabScan grip inter rest s
    else .ok (s, [])

/-- The release branch of onRightSqueeze: if an object is held,
    setParent(null), physicsImpostor?.wakeUp(), clear the reference. -/
def releaseRight (s : GameState) : GameState × List Event :=
  match s.rightGrabbedObject with
  | none => (s, [])
  | some o =>
    ({ s with
       rightGrabbedObject := none,
       meshes := fun i =>
         if i = o then
           { parent := none,
             impostor := (s.meshes o).impostor.map (fun _ => Phys.awake) }
         else s.meshes i },
     Event.setParent o none ::
       (match (s.meshes o).impostor with
        | some _ => [Event.wake o]
        | none => []))

/-- onRightSqueeze: act only when component?.changes.pressed is set; on a
    press edge run the grab scan over the registry, on a release edge run the
    release branch. -/
def onRightSqueeze (component : Option SqueezeComponent) (grip : Option String)
    (inter : String → Nat → Bool) (s : GameState) :
    Except String (GameState × List Event) :=
  match component with
  | none => .ok (s, [])
  | some c =>
    if c.changedPressed then
      if c.pressed then grabScan grip inter s.grabbableObjects s
      else .ok (releaseRight s)
    else .ok (s, [])

/-- onLeftSqueeze: both branches only call Logger.Log, so there is no state
    change and no physics or scene-graph side effect. -/
def onLeftSqueeze (component : Option SqueezeComponent) (s : GameState) :
    GameState × List Event :=
  match component with
  | none => (s, [])
  | some _ => (s, [])

/-- One frame of right-squeeze processing as processControllerInput performs
    it: poll the squeeze component through the optional chain, then run the
    handler against the grip of the controller. -/
def rightFrame (ctrl : Option InputSource) (inter : String → Nat → Bool)
    (s : GameState) : Except String (GameState × List Event) :=
  onRightSqueeze (pollSqueeze ctrl)
    (match ctrl with
     | none => none
     | some c2 => c2.grip) inter s

/-- A mesh as assetsManager.onFinish iterates it: its name and the name of
    its loaded parent, when any. -/
structure LoadedMesh where
  name : String
  parentName : Option String
deriving DecidableEq, Repr

/-- The onFinish branch for one loaded mesh: the table mesh is unparented and
    gets a static impostor, a mesh in the Props group is pushed to the
    registry, unparented, given a dynamic impostor which is put to sleep, and
    every other mesh is untouched. -/
def onFinishMesh (m : LoadedMesh) : MeshState :=
  if m.name = "rpgpp_lt_table_01" then
    { parent := none, impostor := some Phys.awake }
  else if m.parentName = some "Props" then
    { parent := none, impostor := some Phys.asleep }
  else { parent := m.parentName, impostor := none }

/-- Indices (counted from base k) of the meshes pushed into grabbableObjects
    by the onFinish loop, in iteration order. -/
def propsIndices : List LoadedMesh → Nat → List Nat
  | [], _ => []
  | m :: rest, k =>
    if m.name = "rpgpp_lt_table_01" then propsIndices rest (k + 1)
    else if m.parentName = some "Props" then k :: propsIndices rest (k + 1)
    else propsIndices rest (k + 1)

/-- Scene state right after assetsManager.onFinish: nothing grabbed, the
    registry holds the Props meshes in load order, every loaded mesh processed
    by onFinishMesh. -/
def loadState (ms : List LoadedMesh) : GameState :=
  { rightGrabbedObject := none,
    grabbableObjects := propsIndices ms 0,
    meshes := fun i =>
      match ms.get? i with
      | some m => onFinishMesh m
      | none => { parent := none, impostor := none } }

/-- Number of wakeUp calls on object o recorded in a trace. -/
def wakeCount (o : Nat) : List Event → Nat
  | [] => 0
  | Event.wake o2 :: rest => (if o2 = o then 1 else 0) + wakeCount o rest
  | Event.sleep _ :: rest => wakeCount o rest
  | Event.setParent _ _ :: rest => wakeCount o rest

/-- The holding invariant: any held object is parented to the grip node and
    its impostor, when present, is asleep. -/
def HoldInv (g : String) (s : GameState) : Prop :=
  ∀ o, s.rightGrabbedObject = some o →
    (s.meshes o).parent = some g ∧
    ∀ p, (s.meshes o).impostor = some p → p = Phys.asleep

/-- States reachable from a loaded scene by right-squeeze handler steps whose
    grip, when present, is the fixed right grip node g. -/
inductive Reachable (g : String) : GameState → Prop where
  | load (ms : List LoadedMesh) : Reachable g (loadState ms)
  | step {s s2 : GameState} {ev : List Event} (c : Option SqueezeComponent)
      (gr : Option String) (inter : String → Nat → Bool) :
      Reachable g s → (gr = none ∨ gr = some g) →
      onRightSqueeze c gr inter s = .ok (s2, ev) → Reachable g s2

/-- Concrete demo scene: two registered objects with awake impostors. -/
def demoState : GameState :=
  { rightGrabbedObject := none,
    grabbableObjects := [0, 1],
    meshes := fun _ => { parent := none, impostor := some Phys.awake } }

/-- Demo scene in which object 0 is held by the right grip. -/
def heldState : GameState :=
  { rightGrabbedObject := some 0,
    grabbableObjects := [0, 1],
    meshes := fun i =>
      if i = 0 then
        { parent := some "rightGrip", impostor := some Phys.asleep }
      else { parent := none, impostor := some Phys.awake } }

/-- Demo scene whose single registered object has no impostor. -/
def bareState : GameState :=
  { rightGrabbedObject := none,
    grabbableObjects := [5],
    meshes := fun _ => { parent := none, impostor := none } }

/-- Oracle: the grip overlaps every object. -/
def interAll : String → Nat → Bool := fun _ _ => true

/-- Oracle: the grip overlaps only object 1. -/
def interOnly1 : String → Nat → Bool := fun _ o => o == 1

/-- Oracle: the grip overlaps nothing. -/
def interNone : String → Nat → Bool := fun _ _ => false

/-- Concrete loaded mesh list: the world root, the table, and two props. -/
def demoMeshes : List LoadedMesh :=
  [{ name := "world", parentName := none },
   { name := "rpgpp_lt_table_01", parentName := some "world" },
   { name := "prop_a", parentName := some "Props" },
   { name := "prop_b", parentName := some "Props" }]

/-- A scan started while an object is already held exits at once with no side
    effects: the loop guard tests rightGrabbedObject before the body runs. -/
theorem grabScan_held (grip : Option String) (inter : String → Nat → Bool)
    (objs : List Nat) (s : GameState) (o : Nat)
    (h : s.rightGrabbedObject = some o) :
    grabScan grip inter objs s = .ok (s, []) := by
  cases objs with
  | nil => rfl
  | cons a rest => simp [grabScan, h]

/-- After grabAttach the held object is the attached one. -/
theorem grabAttach_held (o : Nat) (g : String) (s : GameState) :
    (grabAttach o g s).rightGrabbedObject = some o := rfl

/-- A scan from an idle state with a valid grip attaches exactly the first
    object of the registry that intersects the grip, and does nothing when
    none does. -/
theorem grabScan_found (g : String) (inter : String → Nat → Bool)
    (objs : List Nat) (s : GameState)
    (hidle : s.rightGrabbedObject = none) :
    grabScan (some g) inter objs s =
      match objs.find? (fun k => inter g k) with
      | some o => .ok (grabAttach o g s, attachTrace o g s)
      | none => .ok (s, []) := by
  induction objs with
  | nil => simp [grabScan]
  | cons a rest ih =>
    cases hga : inter g a with
    | true =>
      simp [grabScan, hidle, hga, List.find?,
        grabScan_held (some g) inter rest (grabAttach a g s) a
          (grabAttach_held a g s)]
    | false =>
      simp [grabScan, hidle, hga, List.find?, ih]

/-- The state produced by grabAttach satisfies the holding invariant. -/
theorem grabAttach_inv (o : Nat) (g : String) (s : GameState) :
    HoldInv g (grabAttach o g s) := by
  intro o2 ho2
  have : o = o2 := by
    have := ho2
    simp [grabAttach] at this
    exact this
  subst this
  constructor
  · simp [grabAttach]
  · intro p hp
    simp [grabAttach] at hp
    cases himp : (s.meshes o).impostor with
    | none => rw [himp] at hp; simp at hp
    | some q => rw [himp] at hp; simp at hp; exact hp.symm

/-- Every successful scan preserves the holding invariant when its grip, if
    present, is the right grip node. -/
theorem grabScan_inv (g : String) (inter : String → Nat → Bool)
    (objs : List Nat) :
    ∀ (s s2 : GameState) (ev : List Event) (gr : Option String),
      (gr = none ∨ gr = some g) →
      grabScan gr inter objs s = .ok (s2, ev) →
      HoldInv g s → HoldInv g s2 := by
  induction objs with
  | nil =>
    intro s s2 ev gr _ hok hinv
    simp [grabScan] at hok
    rw [← hok.1]
    exact hinv
  | cons a rest ih =>
    intro s s2 ev gr hgr hok hinv
    by_cases hidle : s.rightGrabbedObject = none
    · cases hgr with
      | inl hnone =>
        subst hnone
        simp [grabScan, hidle] at hok
      | inr hsome =>
        subst hsome
        cases hga : inter g a with
        | false =>
          simp [grabScan, hidle, hga] at hok
          exact ih s s2 ev (some g) (Or.inr rfl) hok hinv
        | true =>
          simp only [grabScan, hidle, if_pos, hga, if_true] at hok
          cases hrec : grabScan (some g) inter rest (grabAttach a g s) with
          | ok pr =>
            rw [hrec] at hok
            simp at hok
            rw [← hok.1]
            exact ih (grabAttach a g s) pr.1 pr.2 (some g) (Or.inr rfl) (by
              rw [hrec]) (grabAttach_inv a g s)
          | error e =>
            rw [hrec] at hok
            simp at hok
    · cases h : s.rightGrabbedObject with
      | none => exact absurd h hidle
      | some o =>
        rw [grabScan_held gr inter (a :: rest) s o h] at hok
        simp at hok
        rw [← hok.1]
        exact hinv

/-- A scan never wakes an impostor: if an impostor is awake after the scan it
    was already awake before. -/
theorem grabScan_no_wake (inter : String → Nat → Bool) (objs : List Nat) :
    ∀ (s s2 : GameState) (ev : List Event) (gr : Option String) (o : Nat),
      grabScan gr inter objs s = .ok (s2, ev) →
      (s2.meshes o).impostor = some Phys.awake →
      (s.meshes o).impostor = some Phys.awake := by
  induction objs with
  | nil =>
    intro s s2 ev gr o hok hawake
    simp [grabScan] at hok
    rw [← hok.1] at hawake
    exact hawake
  | cons a rest ih =>
    intro s s2 ev gr o hok hawake
    by_cases hidle : s.rightGrabbedObject = none
    · cases gr with
      | none => simp [grabScan, hidle] at hok
      | some g =>
        cases hga : inter g a with
        | false =>
          simp [grabScan, hidle, hga] at hok
          exact ih s s2 ev (some g) o hok hawake
        | true =>
          simp only [grabScan, hidle, if_pos, hga, if_true] at hok
          cases hrec : grabScan (some g) inter rest (grabAttach a g s) with
          | ok pr =>
            rw [hrec] at hok
            simp at hok
            have h2 : ((grabAttach a g s).meshes o).impostor
                = some Phys.awake := by
              refine ih (grabAttach a g s) pr.1 pr.2 (some g) o (by rw [hrec]) ?_
              rw [hok.1]
              exact hawake
            by_cases hoa : o = a
            · subst hoa
              simp [grabAttach] at h2
            · simp [grabAttach, hoa] at h2
              exact h2
          | error e =>
            rw [hrec] at hok
            simp at hok
    · cases h : s.rightGrabbedObject with
      | none => exact absurd h hidle
      | some o2 =>
        rw [grabScan_held gr inter (a :: rest) s o2 h] at hok
        simp at hok
        rw [← hok.1] at hawake
        exact hawake

/-- Every index collected by the onFinish loop points at a mesh that is not
    the table and whose loaded parent is the Props group. -/
theorem propsIndices_mem (ms : List LoadedMesh) :
    ∀ (k i : Nat), i ∈ propsIndices ms k →
      k ≤ i ∧ ∃ m, ms.get? (i - k) = some m ∧
        m.name ≠ "rpgpp_lt_table_01" ∧ m.parentName = some "Props" := by
  induction ms with
  | nil =>
    intro k i h
    simp [propsIndices] at h
  | cons m rest ih =>
    intro k i h
    by_cases htab : m.name = "rpgpp_lt_table_01"
    · rw [propsIndices, if_pos htab] at h
      obtain ⟨hk, m2, hget, hm2⟩ := ih (k + 1) i h
      refine ⟨by omega, m2, ?_, hm2⟩
      have : i - k = (i - (k + 1)) + 1 := by omega
      rw [this]
      simpa using hget
    · by_cases hpr : m.parentName = some "Props"
      · rw [propsIndices, if_neg htab, if_pos hpr] at h
        cases h with
        | head =>
          exact ⟨Nat.le_refl k, m, by simp, htab, hpr⟩
        | tail _ h2 =>
          obtain ⟨hk, m2, hget, hm2⟩ := ih (k + 1) i h2
          refine ⟨by omega, m2, ?_, hm2⟩
          have : i - k = (i - (k + 1)) + 1 := by omega
          rw [this]
          simpa using hget
      · rw [propsIndices, if_neg htab, if_neg hpr] at h
        obtain ⟨hk, m2, hget, hm2⟩ := ih (k + 1) i h
        refine ⟨by omega, m2, ?_, hm2⟩
        have : i - k = (i - (k + 1)) + 1 := by omega
        rw [this]
        simpa using hget

/-- After the release branch either nothing was held (state unchanged) or the
    grabbed reference is cleared. -/
theorem releaseRight_cases (s : GameState) :
    (releaseRight s).1 = s ∨ (releaseRight s).1.rightGrabbedObject = none := by
  cases h : s.rightGrabbedObject with
  | none => left; simp [releaseRight, h]
  | some o => right; simp [releaseRight, h]

/-- Every successful right-squeeze step preserves the holding invariant when
    its grip, if present, is the right grip node. -/
theorem onRightSqueeze_inv (g : String) (c : Option SqueezeComponent)
    (gr : Option String) (inter : String → Nat → Bool)
    (s s2 : GameState) (ev : List Event)
    (hgr : gr = none ∨ gr = some g)
    (hok : onRightSqueeze c gr inter s = .ok (s2, ev))
    (hinv : HoldInv g s) : HoldInv g s2 := by
  cases c with
  | none =>
    simp [onRightSqueeze] at hok
    rw [← hok.1]
    exact hinv
  | some cc =>
    cases hch : cc.changedPressed with
    | false =>
      simp [onRightSqueeze, hch] at hok
      rw [← hok.1]
      exact hinv
    | true =>
      cases hpr : cc.pressed with
      | true =>
        simp [onRightSqueeze, hch, hpr] at hok
        exact grabScan_inv g inter s.grabbableObjects s s2 ev gr hgr hok hinv
      | false =>
        simp [onRightSqueeze, hch, hpr] at hok
        have hs2 : (releaseRight s).1 = s2 := by rw [hok]
        cases releaseRight_cases s with
        | inl h => rw [← hs2, h]; exact hinv
        | inr h =>
          intro o ho
          rw [← hs2] at ho
          rw [h] at ho
          cases ho

/-- C1: on a rising edge of the right squeeze (changed and now pressed) while
    the hand is Idle, with the grip available and o the first registered
    object intersecting it, the handler ends the frame holding o: the
    impostor of o is put to sleep and o is reparented onto the grip. -/
theorem right_press_edge_grabs_overlap
    (c : SqueezeComponent) (g : String) (inter : String → Nat → Bool)
    (s : GameState) (o : Nat)
    (hch : c.changedPressed = true) (hpr : c.pressed = true)
    (hidle : s.rightGrabbedObject = none)
    (hfind : s.grabbableObjects.find? (fun k => inter g k) = some o) :
    ∃ s2 ev, onRightSqueeze (some c) (some g) inter s = .ok (s2, ev) ∧
      s2.rightGrabbedObject = some o ∧
      (s2.meshes o).parent = some g ∧
      (s2.meshes o).impostor
        = (s.meshes o).impostor.map (fun _ => Phys.asleep) := by
  refine ⟨grabAttach o g s, attachTrace o g s, ?_, rfl, ?_, ?_⟩
  · simp only [onRightSqueeze, hch, hpr, if_true]
    rw [grabScan_found g inter s.grabbableObjects s hidle, hfind]
  · simp [grabAttach]
  · simp [grabAttach]

/-- Witness for C1 at a concrete scene where only object 1 overlaps. -/
theorem right_press_edge_grabs_overlap_witness :
    ([0, 1].find? (fun k => interOnly1 "rightGrip" k) = some 1) ∧
    ∃ s2 ev,
      onRightSqueeze (some { pressed := true, changedPressed := true })
          (some "rightGrip") interOnly1 demoState = .ok (s2, ev) ∧
      s2.rightGrabbedObject = some 1 ∧
      (s2.meshes 1).parent = some "rightGrip" ∧
      (s2.meshes 1).impostor
        = (demoState.meshes 1).impostor.map (fun _ => Phys.asleep) :=
  ⟨rfl, right_press_edge_grabs_overlap
    { pressed := true, changedPressed := true } "rightGrip" interOnly1
    demoState 1 rfl rfl rfl rfl⟩

/-- C2: on a falling edge of the right squeeze while holding an object o that
    has an impostor, the handler ends the frame Idle: o is detached to the
    world root, its impostor is woken, the trace wakes it exactly once, and
    the grabbed reference is cleared. -/
theorem right_release_edge_detaches
    (c : SqueezeComponent) (gr : Option String) (inter : String → Nat → Bool)
    (s : GameState) (o : Nat) (p : Phys)
    (hch : c.changedPressed = true) (hpr : c.pressed = false)
    (hheld : s.rightGrabbedObject = some o)
    (himp : (s.meshes o).impostor = some p) :
    ∃ s2 ev, onRightSqueeze (some c) gr inter s = .ok (s2, ev) ∧
      s2.rightGrabbedObject = none ∧
      (s2.meshes o).parent = none ∧
      (s2.meshes o).impostor = some Phys.awake ∧
      wakeCount o ev = 1 := by
  refine ⟨(releaseRight s).1, (releaseRight s).2, ?_, ?_, ?_, ?_, ?_⟩
  · simp [onRightSqueeze, hch, hpr]
  · simp [releaseRight, hheld]
  · simp [releaseRight, hheld]
  · simp [releaseRight, hheld, himp]
  · simp [releaseRight, hheld, himp, wakeCount]

/-- Witness for C2: releasing the held object of the concrete held scene. -/
theorem right_release_edge_detaches_witness :
    heldState.rightGrabbedObject = some 0 ∧
    (heldState.meshes 0).impostor = some Phys.asleep ∧
    ∃ s2 ev,
      onRightSqueeze (some { pressed := false, changedPressed := true })
          none interNone heldState = .ok (s2, ev) ∧
      s2.rightGrabbedObject = none ∧
      (s2.meshes 0).parent = none ∧
      (s2.meshes 0).impostor = some Phys.awake ∧
      wakeCount 0 ev = 1 :=
  ⟨rfl, rfl, right_release_edge_detaches
    { pressed := false, changedPressed := true } none interNone heldState 0
    Phys.asleep rfl rfl rfl rfl⟩

/-- C3: the press-edge scan inspects the registry in registration order and
    its outcome is decided by the first intersecting entry: that entry is
    attached when it exists, and when no registered object intersects the
    grip the state is unchanged with no side effects. -/
theorem press_edge_first_match_wins
    (c : SqueezeComponent) (g : String) (inter : String → Nat → Bool)
    (s : GameState)
    (hch : c.changedPressed = true) (hpr : c.pressed = true)
    (hidle : s.rightGrabbedObject = none) :
    onRightSqueeze (some c) (some g) inter s =
      match s.grabbableObjects.find? (fun k => inter g k) with
      | some o => .ok (grabAttach o g s, attachTrace o g s)
      | none => .ok (s, []) := by
  simp only [onRightSqueeze, hch, hpr, if_true]
  exact grabScan_found g inter s.grabbableObjects s hidle

/-- Witness for C3: with both objects of the registry [0, 1] overlapping, a
    press edge attaches object 0, not object 1; with nothing overlapping the
    state is unchanged and the trace empty. -/
theorem press_edge_first_match_wins_witness :
    (onRightSqueeze (some { pressed := true, changedPressed := true })
        (some "rightGrip") interAll demoState
      = .ok (grabAttach 0 "rightGrip" demoState,
             attachTrace 0 "rightGrip" demoState) ∧
     (grabAttach 0 "rightGrip" demoState).rightGrabbedObject = some 0) ∧
    onRightSqueeze (some { pressed := true, changedPressed := true })
        (some "rightGrip") interNone demoState = .ok (demoState, []) := by
  refine ⟨⟨?_, rfl⟩, ?_⟩
  · rw [press_edge_first_match_wins
      { pressed := true, changedPressed := true } "rightGrip" interAll
      demoState rfl rfl rfl]
    rfl
  · rw [press_edge_first_match_wins
      { pressed := true, changedPressed := true } "rightGrip" interNone
      demoState rfl rfl rfl]
    rfl

/-- C5: transitions fire only on true edges: a press edge arriving while an
    object is already held changes nothing and re-triggers no attach side
    effect, and a held level (no change flag) makes the handler do nothing at
    all. -/
theorem no_double_grab_edges_only
    (c : SqueezeComponent) (gr : Option String) (inter : String → Nat → Bool)
    (s : GameState) (o : Nat) :
    (s.rightGrabbedObject = some o → c.changedPressed = true →
      c.pressed = true →
      onRightSqueeze (some c) gr inter s = .ok (s, [])) ∧
    (c.changedPressed = false →
      onRightSqueeze (some c) gr inter s = .ok (s, [])) := by
  constructor
  · intro hheld hch hpr
    simp only [onRightSqueeze, hch, hpr, if_true]
    exact grabScan_held gr inter s.grabbableObjects s o hheld
  · intro hch
    simp [onRightSqueeze, hch]

/-- Witness for C5: a second press edge while holding, and a held level, both
    leave the concrete held scene untouched. -/
theorem no_double_grab_edges_only_witness :
    onRightSqueeze (some { pressed := true, changedPressed := true }) none
        interAll heldState = .ok (heldState, []) ∧
    onRightSqueeze (some { pressed := true, changedPressed := false }) none
        interAll heldState = .ok (heldState, []) :=
  ⟨(no_double_grab_edges_only { pressed := true, changedPressed := true }
      none interAll heldState 0).1 rfl rfl rfl,
   (no_double_grab_edges_only { pressed := true, changedPressed := false }
      none interAll heldState 0).2 rfl⟩

/-- C6: a falling edge while Idle leaves the state unchanged and produces no
    side effects: no detach, no wakeUp, no double resume. -/
theorem release_while_idle_noop
    (c : SqueezeComponent) (gr : Option String) (inter : String → Nat → Bool)
    (s : GameState)
    (hidle : s.rightGrabbedObject = none)
    (hch : c.changedPressed = true) (hpr : c.pressed = false) :
    onRightSqueeze (some c) gr inter s = .ok (s, []) := by
  simp [onRightSqueeze, hch, hpr, releaseRight, hidle]

/-- Witness for C6: a redundant release on the concrete idle scene. -/
theorem release_while_idle_noop_witness :
    onRightSqueeze (some { pressed := false, changedPressed := true }) none
        interAll demoState = .ok (demoState, []) :=
  release_while_idle_noop { pressed := false, changedPressed := true } none
    interAll demoState rfl rfl rfl

/-- C4: invariant over all reachable states of the controller: whenever the
    right hand holds an object, that object is parented to the right grip
    node and its impostor, when present, is asleep; and a release step
    reverts the held object to world-root parenting with its impostor woken
    back to dynamic simulation. -/
theorem holding_invariant (g : String) :
    (∀ s, Reachable g s → HoldInv g s) ∧
    (∀ (c : SqueezeComponent) (gr : Option String)
        (inter : String → Nat → Bool) (s : GameState) (o : Nat),
      c.changedPressed = true → c.pressed = false →
      s.rightGrabbedObject = some o →
      ∃ s2 ev, onRightSqueeze (some c) gr inter s = .ok (s2, ev) ∧
        (s2.meshes o).parent = none ∧
        (s2.meshes o).impostor
          = (s.meshes o).impostor.map (fun _ => Phys.awake)) := by
  constructor
  · intro s hreach
    induction hreach with
    | load ms =>
      intro o ho
      simp [loadState] at ho
    | step c gr inter hr hgr hok ih =>
      exact onRightSqueeze_inv g c gr inter _ _ _ hgr hok ih
  · intro c gr inter s o hch hpr hheld
    refine ⟨(releaseRight s).1, (releaseRight s).2, ?_, ?_, ?_⟩
    · simp [onRightSqueeze, hch, hpr]
    · simp [releaseRight, hheld]
    · simp [releaseRight, hheld]

/-- Witness for C4: the freshly loaded concrete scene satisfies the holding
    invariant, and releasing the concrete held scene reverts object 0 to the
    world root with its impostor awake. -/
theorem holding_invariant_witness :
    HoldInv "rightGrip" (loadState demoMeshes) ∧
    ∃ s2 ev,
      onRightSqueeze (some { pressed := false, changedPressed := true }) none
          interNone heldState = .ok (s2, ev) ∧
      (s2.meshes 0).parent = none ∧
      (s2.meshes 0).impostor
        = (heldState.meshes 0).impostor.map (fun _ => Phys.awake) :=
  ⟨(holding_invariant "rightGrip").1 (loadState demoMeshes)
      (Reachable.load demoMeshes),
   (holding_invariant "rightGrip").2
      { pressed := false, changedPressed := true } none interNone heldState 0
      rfl rfl rfl⟩

/-- C7 counterexample: a press edge delivered while the grip is unavailable
    is not silently ignored: with the hand idle and a nonempty registry the
    handler dereferences the missing grip and raises a TypeError, refuting
    the claim that the operation never fails or throws. -/
theorem press_edge_missing_grip_throws :
    rightFrame
      (some (InputSource.mk
        (some (MotionController.mk
          (some (SqueezeComponent.mk true true)))) none))
      interAll demoState
      = .error "TypeError: right controller grip is null" := rfl

/-- C7 amended: when the controller is not tracked, polling yields no squeeze
    component, so no edge is delivered and the frame is a harmless no-op; but
    when a press edge is delivered while the grip is unavailable, the hand
    idle and the registry nonempty, the handler throws a TypeError on the
    missing grip instead of silently ignoring the event. -/
theorem untracked_noop_but_missing_grip_throws :
    (∀ (inter : String → Nat → Bool) (s : GameState),
      rightFrame none inter s = .ok (s, [])) ∧
    (∀ (c : SqueezeComponent) (inter : String → Nat → Bool) (s : GameState)
        (o : Nat) (rest : List Nat),
      c.changedPressed = true → c.pressed = true →
      s.rightGrabbedObject = none → s.grabbableObjects = o :: rest →
      onRightSqueeze (some c) none inter s
        = .error "TypeError: right controller grip is null") := by
  constructor
  · intro inter s
    rfl
  · intro c inter s o rest hch hpr hidle hobjs
    simp only [onRightSqueeze, hch, hpr, if_true]
    rw [hobjs]
    simp [grabScan, hidle]

/-- Witness for C7 amended: the untracked frame is a no-op on the concrete
    scene, and the concrete press edge with a missing grip throws. -/
theorem untracked_noop_but_missing_grip_throws_witness :
    rightFrame none interAll demoState = .ok (demoState, []) ∧
    onRightSqueeze (some { pressed := true, changedPressed := true }) none
        interAll demoState
      = .error "TypeError: right controller grip is null" :=
  ⟨(untracked_noop_but_missing_grip_throws).1 interAll demoState,
   (untracked_noop_but_missing_grip_throws).2
     { pressed := true, changedPressed := true } interAll demoState 0 [1]
     rfl rfl rfl rfl⟩

/-- C8 counterexample: at the same press edge over the same scene the right
    handler attaches object 0 while the left handler changes nothing and
    performs no side effect, so the two hands are not implemented
    identically. -/
theorem left_squeeze_differs_from_right :
    onLeftSqueeze (some { pressed := true, changedPressed := true }) demoState
      = (demoState, []) ∧
    onRightSqueeze (some { pressed := true, changedPressed := true })
        (some "rightGrip") interAll demoState
      = .ok (grabAttach 0 "rightGrip" demoState,
             attachTrace 0 "rightGrip" demoState) ∧
    (grabAttach 0 "rightGrip" demoState).rightGrabbedObject = some 0 ∧
    demoState.rightGrabbedObject = none := ⟨rfl, rfl, rfl, rfl⟩

/-- C8 amended: only the right hand implements the grab and release state
    machine; the left squeeze handler performs no registry scan, no attach or
    detach and no physics side effect on any input, leaving the game state
    unchanged. -/
theorem left_squeeze_no_side_effects
    (c : Option SqueezeComponent) (s : GameState) :
    onLeftSqueeze c s = (s, []) := by
  cases c <;> rfl

/-- C9: every mesh registered as grabbable by the onFinish handler has its
    impostor put to sleep at load time, and a right-squeeze step can turn a
    non-awake impostor awake only through a falling edge that releases that
    very object while it is the held one. -/
theorem grabbables_load_asleep_until_release :
    (∀ (ms : List LoadedMesh) (i : Nat),
      i ∈ (loadState ms).grabbableObjects →
      ((loadState ms).meshes i).impostor = some Phys.asleep) ∧
    (∀ (c : Option SqueezeComponent) (gr : Option String)
        (inter : String → Nat → Bool) (s s2 : GameState) (ev : List Event)
        (o : Nat),
      onRightSqueeze c gr inter s = .ok (s2, ev) →
      (s.meshes o).impostor ≠ some Phys.awake →
      (s2.meshes o).impostor = some Phys.awake →
      ∃ cc, c = some cc ∧ cc.changedPressed = true ∧ cc.pressed = false ∧
        s.rightGrabbedObject = some o) := by
  constructor
  · intro ms i hmem
    obtain ⟨-, m, hget, hname, hpar⟩ :=
      propsIndices_mem ms 0 i (by simpa [loadState] using hmem)
    simp only [Nat.sub_zero, List.get?_eq_getElem?] at hget
    simp [loadState, hget, onFinishMesh, hname, hpar]
  · intro c gr inter s s2 ev o hok hnot hawake
    cases c with
    | none =>
      simp [onRightSqueeze] at hok
      rw [← hok.1] at hawake
      exact absurd hawake hnot
    | some cc =>
      cases hch : cc.changedPressed with
      | false =>
        simp [onRightSqueeze, hch] at hok
        rw [← hok.1] at hawake
        exact absurd hawake hnot
      | true =>
        cases hpr : cc.pressed with
        | true =>
          simp [onRightSqueeze, hch, hpr] at hok
          exact absurd
            (grabScan_no_wake inter s.grabbableObjects s s2 ev gr o hok hawake)
            hnot
        | false =>
          simp [onRightSqueeze, hch, hpr] at hok
          have hs2 : (releaseRight s).1 = s2 := by rw [hok]
          cases hro : s.rightGrabbedObject with
          | none =>
            have hsame : (releaseRight s).1 = s := by simp [releaseRight, hro]
            rw [← hs2, hsame] at hawake
            exact absurd hawake hnot
          | some o2 =>
            by_cases ho2 : o2 = o
            · subst ho2
              exact ⟨cc, rfl, hch, hpr, rfl⟩
            · have hmo : (releaseRight s).1.meshes o = s.meshes o := by
                simp only [releaseRight, hro]
                exact if_neg (fun h => ho2 h.symm)
              rw [← hs2, hmo] at hawake
              exact absurd hawake hnot

/-- Witness for C9: prop index 2 of the concrete loaded list starts asleep,
    and the release step of the concrete held scene satisfies the wake
    characterisation. -/
theorem grabbables_load_asleep_until_release_witness :
    (2 ∈ (loadState demoMeshes).grabbableObjects ∧
      ((loadState demoMeshes).meshes 2).impostor = some Phys.asleep) ∧
    ∃ cc, (some (SqueezeComponent.mk false true)
             : Option SqueezeComponent) = some cc ∧
      cc.changedPressed = true ∧ cc.pressed = false ∧
      heldState.rightGrabbedObject = some 0 := by
  constructor
  · exact ⟨by decide,
      (grabbables_load_asleep_until_release).1 demoMeshes 2 (by decide)⟩
  · exact (grabbables_load_asleep_until_release).2
      (some (SqueezeComponent.mk false true)) none interNone heldState
      (releaseRight heldState).1 (releaseRight heldState).2 0
      rfl (by decide) rfl

/-- C10: when the object involved has no physics impostor, optional chaining
    skips the sleep and wake calls, yet the grab still reparents onto the
    grip and sets the binding, the release still detaches and clears it, and
    neither operation fails. -/
theorem missing_impostor_safe
    (g : String) (inter : String → Nat → Bool) (s : GameState) (o : Nat) :
    ((s.meshes o).impostor = none → s.rightGrabbedObject = none →
      s.grabbableObjects.find? (fun k => inter g k) = some o →
      onRightSqueeze (some (SqueezeComponent.mk true true)) (some g) inter s
        = .ok (grabAttach o g s, [Event.setParent o (some g)]) ∧
      (grabAttach o g s).rightGrabbedObject = some o ∧
      ((grabAttach o g s).meshes o).parent = some g ∧
      ((grabAttach o g s).meshes o).impostor = none) ∧
    ((s.meshes o).impostor = none → s.rightGrabbedObject = some o →
      onRightSqueeze (some (SqueezeComponent.mk false true)) (some g) inter s
        = .ok ((releaseRight s).1, [Event.setParent o none]) ∧
      (releaseRight s).1.rightGrabbedObject = none ∧
      ((releaseRight s).1.meshes o).parent = none ∧
      ((releaseRight s).1.meshes o).impostor = none) := by
  constructor
  · intro himp hidle hfind
    refine ⟨?_, rfl, ?_, ?_⟩
    · simp only [onRightSqueeze, if_true]
      rw [grabScan_found g inter s.grabbableObjects s hidle, hfind]
      simp [attachTrace, himp]
    · simp [grabAttach]
    · simp [grabAttach, himp]
  · intro himp hheld
    refine ⟨?_, ?_, ?_, ?_⟩
    · simp [onRightSqueeze, releaseRight, hheld, himp]
    · simp [releaseRight, hheld]
    · simp [releaseRight, hheld]
    · simp [releaseRight, hheld, himp]

/-- Witness for C10: grabbing and then releasing the impostor-less object of
    the concrete bare scene reparents it both ways without failing. -/
theorem missing_impostor_safe_witness :
    ((bareState.meshes 5).impostor = none ∧
      onRightSqueeze (some (SqueezeComponent.mk true true))
          (some "rightGrip") interAll bareState
        = .ok (grabAttach 5 "rightGrip" bareState,
               [Event.setParent 5 (some "rightGrip")])) ∧
    onRightSqueeze (some (SqueezeComponent.mk false true))
        (some "rightGrip") interAll (grabAttach 5 "rightGrip" bareState)
      = .ok ((releaseRight (grabAttach 5 "rightGrip" bareState)).1,
             [Event.setParent 5 none]) := by
  refine ⟨⟨rfl, ?_⟩, ?_⟩
  · exact ((missing_impostor_safe "rightGrip" interAll bareState 5).1
      rfl rfl rfl).1
  · exact ((missing_impostor_safe "rightGrip" interAll
      (grabAttach 5 "rightGrip" bareState) 5).2 rfl rfl).1
